import Mathlib

/-!
Verification of the MiraAvatar heuristic AI-text-detection core.

This file shallowly embeds the rule-based scoring pipelines of
`server/services/ai-detector-lite.py`, `server/services/ai-detector-adapted.py`,
`server/services/user-desklib-model.py` (its non-PyTorch simulation path) and
`server/services/ai-detector-ml.py` (its `AdvancedLinguisticDetector` fallback)
as pure Lean functions over `String` and `ℚ` (exact rational arithmetic in
place of IEEE floats), and settles the specification claims against them.
-/

/-! ## Python-style string primitives -/

/-- The character class Python's `str.split()` / `str.strip()` treat as
whitespace: space, tab, newline, carriage return, vertical tab, form feed. -/
def pyIsSpace (c : Char) : Bool :=
  c == ' ' || c == Char.ofNat 9 || c == Char.ofNat 10 || c == Char.ofNat 13 ||
  c == Char.ofNat 11 || c == Char.ofNat 12

/-- Split a character list into the maximal runs of characters for which the
delimiter predicate `p` is false, discarding empty runs (the behaviour of
Python `str.split()` with no argument, and of `re.split` on a `+`-quantified
character class once blank fragments are filtered out). -/
def splitRuns (p : Char → Bool) : List Char → List Char → List (List Char)
  | [], acc => if acc.isEmpty then [] else [acc.reverse]
  | c :: cs, acc =>
    if p c then
      (if acc.isEmpty then splitRuns p cs [] else acc.reverse :: splitRuns p cs [])
    else
      splitRuns p cs (c :: acc)

/-- Drop characters satisfying `p` from both ends of a character list. -/
def stripCharsL (p : Char → Bool) (l : List Char) : List Char :=
  ((l.dropWhile p).reverse.dropWhile p).reverse

/-- Python `text.strip()`. -/
def pyStrip (s : String) : String := String.mk (stripCharsL pyIsSpace s.data)

/-- Python `text.strip(chars)` for an explicit character set. -/
def pyStripSet (set : List Char) (s : String) : String :=
  String.mk (stripCharsL (fun c => set.contains c) s.data)

/-- Python `text.lower()` (ASCII case folding, which covers every string the
repository manipulates). -/
def pyLower (s : String) : String := String.mk (s.data.map Char.toLower)

/-- Python `text.split()`: whitespace-delimited tokens, no empties. -/
def pySplit (s : String) : List String :=
  (splitRuns pyIsSpace s.data []).map String.mk

/-- `re.split(r'[.!?]+', text)` with blank fragments removed: the raw
sentence fragments used throughout the repository. -/
def sentFragments (s : String) : List String :=
  (splitRuns (fun c => c == '.' || c == '!' || c == '?') s.data []).map String.mk

/-- The sentence list every variant derives: split on runs of `.!?`, strip
each fragment, keep the non-blank ones. -/
def pySentences (s : String) : List String :=
  ((sentFragments s).map pyStrip).filter (fun t => t ≠ "")

/-- `string.punctuation` from the Python standard library: ASCII codes
33–47, 58–64, 91–96 and 123–126. -/
def pyPunctuation : List Char :=
  ((List.range 128).map Char.ofNat).filter fun c =>
    decide ((33 ≤ c.toNat ∧ c.toNat ≤ 47) ∨ (58 ≤ c.toNat ∧ c.toNat ≤ 64) ∨
            (91 ≤ c.toNat ∧ c.toNat ≤ 96) ∨ (123 ≤ c.toNat ∧ c.toNat ≤ 126))

/-- Count occurrences of a character in a string (Python `text.count(c)`). -/
def countChar (c : Char) (s : String) : ℕ := s.data.count c

/-- Boolean prefix test on character lists. -/
def isPrefixOfL : List Char → List Char → Bool
  | [], _ => true
  | _ :: _, [] => false
  | a :: as, b :: bs => (a == b) && isPrefixOfL as bs

/-- Python's substring containment `needle in hay` (for non-empty needles). -/
def containsSubAux (pat : List Char) : List Char → Bool
  | [] => pat.isEmpty
  | c :: cs => isPrefixOfL pat (c :: cs) || containsSubAux pat cs

/-- Python `needle in hay`. -/
def containsSub (pat s : String) : Bool := containsSubAux pat.data s.data

/-- A regex word character (`\w`): letters, digits, underscore. -/
def isWordChar (c : Char) : Bool := c.isAlphanum || c == '_'

/-- Tokens matched by `re.findall(r'\b\w+\b', s)`: the maximal runs of word
characters. -/
def wordTokens (s : String) : List String :=
  (splitRuns (fun c => !isWordChar c) s.data []).map String.mk

/-- If `pat` is a literal prefix of the list, return the remainder. -/
def dropAfter : List Char → List Char → Option (List Char)
  | [], rest => some rest
  | _ :: _, [] => none
  | p :: ps, c :: cs => if p == c then dropAfter ps cs else none

/-- True when the list is empty or starts with a non-word character: the
right-hand `\b` test after a pattern ending in a word character. -/
def headNonWord : List Char → Bool
  | [] => true
  | c :: _ => !isWordChar c

/-- Fuel-driven scan counting the non-overlapping occurrences of the literal
`pat`, each bounded by `\b` on both sides, exactly as `re.findall(r'\bpat\b', s)`
counts them for patterns that start and end with word characters (every
pattern in the repository does).  `prevIsWord` records whether the character
just before the scan position is a word character. -/
def countBoundedAux (pat : List Char) : ℕ → Bool → List Char → ℕ
  | 0, _, _ => 0
  | _ + 1, _, [] => 0
  | fuel + 1, prevIsWord, c :: cs =>
    if prevIsWord then countBoundedAux pat fuel (isWordChar c) cs
    else
      match dropAfter pat (c :: cs) with
      | some rest =>
        if headNonWord rest then
          -- the last character of every repository pattern is a word character
          1 + countBoundedAux pat fuel true rest
        else countBoundedAux pat fuel (isWordChar c) cs
      | none => countBoundedAux pat fuel (isWordChar c) cs

/-- `len(re.findall(r'\bpat\b', s))` for a literal pattern. -/
def countBounded (pat s : String) : ℕ :=
  countBoundedAux pat.data (s.data.length + 1) false s.data

/-- `re.search(r'\bpat\b', s)` succeeds. -/
def hasBounded (pat s : String) : Bool := countBounded pat s != 0

/-- Count maximal runs of the character `d` of length at least two:
`len(re.findall(r'[d]{2,}', s))`. -/
def countRuns2 (d : Char) (l : List Char) : ℕ :=
  let st := l.foldl
    (fun (st : ℕ × ℕ) c =>
      if c == d then (st.1, st.2 + 1)
      else if st.2 ≥ 2 then (st.1 + 1, 0) else (st.1, 0))
    (0, 0)
  if st.2 ≥ 2 then st.1 + 1 else st.1

/-- Fuel-driven scan for Python `s.count(sub)`: non-overlapping occurrences
of a literal substring, scanning left to right. -/
def countSubAux (pat : List Char) : ℕ → List Char → ℕ
  | 0, _ => 0
  | _ + 1, [] => 0
  | fuel + 1, c :: cs =>
    match dropAfter pat (c :: cs) with
    | some rest => 1 + countSubAux pat fuel rest
    | none => countSubAux pat fuel cs

/-- Python `s.count(sub)` for a non-empty literal substring. -/
def countSub (pat s : String) : ℕ := countSubAux pat.data (s.data.length + 1) s.data

/-- The apostrophe character, used to spell the contraction markers from the
source word lists. -/
def apoS : String := String.mk [Char.ofNat 39]

/-- A classification record as produced by the success path of every variant:
probability, label, confidence. -/
structure DetectResult where
  probability : ℚ
  label : String
  confidence : ℚ
  deriving DecidableEq, Repr

/-! ## `ai-detector-lite.py` -/

namespace Lite

/-- The `sophisticated_words` list of `calculate_text_features`. -/
def sophisticated_words : List String :=
  ["comprehensive", "analysis", "demonstrates", "significant", "patterns",
   "extensive", "insights", "implications", "furthermore", "therefore",
   "consequently", "moreover", "additionally", "substantial", "considerable",
   "methodological", "systematic", "empirical", "theoretical", "paradigm",
   "framework", "methodology", "approach", "perspective", "investigation"]

/-- The `formal_patterns` regex list (each searched with `\b … \b`). -/
def formal_patterns : List String :=
  ["furthermore", "therefore", "consequently", "moreover",
   "in conclusion", "it is important to note", "this suggests",
   "the analysis shows", "the results indicate", "this demonstrates"]

/-- The `casual_markers` list. -/
def casual_markers : List String :=
  ["lol", "omg", "btw", "tbh", "imo", "like", "really", "super", "kinda"]

/-- The feature record returned by `calculate_text_features`.  Fields keep the
source names except the ratio fields, shortened to `_r`. -/
structure Features where
  avg_word_length : ℚ
  avg_sentence_length : ℚ
  sophistication_r : ℚ
  formal_r : ℚ
  repetition_score : ℚ
  exclamation_r : ℚ
  question_r : ℚ
  casual_r : ℚ
  deriving DecidableEq, Repr

/-- Word trigrams of a token list (`' '.join(words[i:i+3])`; since tokens
contain no spaces, the joined strings are equal exactly when the triples
are). -/
def trigramsOf : List String → List (String × String × String)
  | a :: b :: c :: rest => (a, b, c) :: trigramsOf (b :: c :: rest)
  | _ => []

/-- `calculate_text_features` from `ai-detector-lite.py`. -/
def calculate_text_features (text : String) : Features :=
  let word_count := (pySplit text).length
  let sentence_count := (pySentences text).length
  let avg_word_length : ℚ :=
    (((pySplit text).map (fun w => (pyStripSet pyPunctuation w).length)).sum : ℚ) /
      max (word_count : ℚ) 1
  let avg_sentence_length : ℚ := (word_count : ℚ) / max (sentence_count : ℚ) 1
  let sophisticated_count :=
    ((pySplit (pyLower text)).filter
      (fun w => sophisticated_words.any (fun soph => containsSub soph w))).length
  let sophistication_r : ℚ := (sophisticated_count : ℚ) / max (word_count : ℚ) 1
  let formal_pattern_count :=
    (formal_patterns.filter (fun pat => hasBounded pat (pyLower text))).length
  let formal_r : ℚ := (formal_pattern_count : ℚ) / max (sentence_count : ℚ) 1
  let words := pySplit (pyLower text)
  let trigrams := trigramsOf words
  let repetition_score : ℚ :=
    (((trigrams.dedup).filter (fun t => 2 ≤ trigrams.count t)).length : ℚ) /
      max (trigrams.length : ℚ) 1
  let exclamation_r : ℚ := (countChar '!' text : ℚ) / max (text.length : ℚ) 1
  let question_r : ℚ := (countChar '?' text : ℚ) / max (text.length : ℚ) 1
  let casual_count :=
    (casual_markers.filter (fun m => containsSub m (pyLower text))).length
  let casual_r : ℚ := (casual_count : ℚ) / max (word_count : ℚ) 1
  { avg_word_length := avg_word_length
    avg_sentence_length := avg_sentence_length
    sophistication_r := sophistication_r
    formal_r := formal_r
    repetition_score := repetition_score
    exclamation_r := exclamation_r
    question_r := question_r
    casual_r := casual_r }

/-- The single formal-pattern contribution of `detect_ai_probability`. -/
def formalAdd (fr : ℚ) : ℚ := if fr > 0.3 then 0.2 else 0

/-- The length adjustment of `detect_ai_probability`: texts of fewer than 20
words have their score multiplied by 0.7; nothing else is scaled. -/
def lenFactor (wc : ℕ) : ℚ := if wc < 20 then 0.7 else 1

/-- The accumulated `ai_score` of `detect_ai_probability` before the length
adjustment. -/
def aiScore (f : Features) : ℚ :=
  (if f.avg_word_length > 6 then (0.2 : ℚ) else 0)
  + (if f.avg_sentence_length > 20 then (0.15 : ℚ) else 0)
  + (if f.sophistication_r > 0.15 then (0.25 : ℚ) else 0)
  + formalAdd f.formal_r
  + (if f.casual_r < 0.05 then (0.1 : ℚ) else 0)
  + (if f.exclamation_r < 0.01 ∧ f.question_r < 0.02 then (0.1 : ℚ) else 0)
  + min (f.repetition_score * 0.3) 0.2

/-- The probability/confidence pair computed by `detect_ai_probability` from
a feature record and the word count. -/
def scorePair (f : Features) (wc : ℕ) : ℚ × ℚ :=
  let s := aiScore f * lenFactor wc
  let probability := min (max s 0.1) 0.99
  let confidence := min (max (|probability - 0.5| * 2) 0.3) 0.95
  (probability, confidence)

/-- `detect_ai_probability` from `ai-detector-lite.py`. -/
def detect_ai_probability (text : String) : ℚ × ℚ :=
  scorePair (calculate_text_features text) (pySplit text).length

/-- The label rule of lite's `main`: note the strict comparison
`probability > 0.5`. -/
def labelOf (p : ℚ) : String := if p > 0.5 then "AI Generated" else "Human Written"

/-- The success record lite's `main` prints for non-empty input. -/
def liteResult (text : String) : DetectResult :=
  let pc := detect_ai_probability text
  ⟨pc.1, labelOf pc.1, pc.2⟩

end Lite

/-! ## `ai-detector-adapted.py` -/

namespace Adapted

/-- The `formal_academic_words` list of `extract_desklib_features`. -/
def formal_academic_words : List String :=
  ["comprehensive", "analysis", "demonstrates", "significant", "extensive",
   "furthermore", "therefore", "consequently", "moreover", "substantial",
   "methodology", "empirical", "theoretical", "framework", "paradigm",
   "implications", "considerations", "perspective", "approach", "investigation",
   "establish", "implementation", "requirements", "optimization", "functionality",
   "configuration", "authentication", "authorization", "integration", "specification"]

/-- The `transition_patterns` list. -/
def transition_patterns : List String :=
  ["however", "therefore", "furthermore", "moreover", "consequently",
   "additionally", "nevertheless", "subsequently", "alternatively"]

/-- The `casual_markers` list (contractions spelled via `apoS`). -/
def casual_markers : List String :=
  ["i" ++ apoS ++ "m", "you" ++ apoS ++ "re", "it" ++ apoS ++ "s",
   "that" ++ apoS ++ "s", "here" ++ apoS ++ "s", "what" ++ apoS ++ "s",
   "there" ++ apoS ++ "s",
   "really", "pretty", "quite", "kind of", "sort of", "like", "actually",
   "honestly", "basically", "totally", "definitely", "probably", "maybe",
   "yeah", "yep", "nope", "okay", "ok", "hey", "hi", "hello"]

/-- The feature record of `extract_desklib_features` (the non-empty case;
the `is_empty` sentinel is modelled by `Option Features`).  `colon_usage`,
`numbered_lists` and `bullet_indicators` are computed by the source but never
read by the scorer; `colon_usage` is kept for fidelity. -/
structure Features where
  formal_density : ℚ
  transition_density : ℚ
  avg_sentence_length : ℚ
  casual_density : ℚ
  question_count : ℕ
  exclamation_count : ℕ
  complex_indicators : ℕ
  colon_usage : ℚ
  word_count : ℕ
  sentence_count : ℕ
  deriving DecidableEq, Repr

/-- `extract_desklib_features` from `ai-detector-adapted.py`; `none` is the
`{'is_empty': True}` sentinel returned when the text has no words. -/
def extract_desklib_features (text : String) : Option Features :=
  let words := pySplit text
  if words.isEmpty then none
  else
    let word_count := words.length
    let sentence_count := max (pySentences text).length 1
    let avg_sentence_length : ℚ := (word_count : ℚ) / (sentence_count : ℚ)
    let text_lower := pyLower text
    let formal_count :=
      (formal_academic_words.filter (fun w => containsSub w text_lower)).length
    let formal_density : ℚ := (formal_count : ℚ) / (word_count : ℚ)
    let transition_count :=
      (transition_patterns.filter (fun w => containsSub w text_lower)).length
    let transition_density : ℚ := (transition_count : ℚ) / (sentence_count : ℚ)
    let colon_usage : ℚ := (countChar ':' text : ℚ) / max ((word_count : ℚ) / 10) 1
    let casual_count :=
      (casual_markers.filter (fun m => containsSub m text_lower)).length
    let casual_density : ℚ := (casual_count : ℚ) / (word_count : ℚ)
    let complex_indicators :=
      countSub " which " text_lower + countSub " that " text_lower +
        countSub " where " text_lower
    some
      { formal_density := formal_density
        transition_density := transition_density
        avg_sentence_length := avg_sentence_length
        casual_density := casual_density
        question_count := countChar '?' text
        exclamation_count := countChar '!' text
        complex_indicators := complex_indicators
        colon_usage := colon_usage
        word_count := word_count
        sentence_count := sentence_count }

/-- Step 1 of `calculate_desklib_probability`: formal academic language. -/
def formalAdd (fd : ℚ) : ℚ := if fd > 0.1 then 0.6 * min (fd * 5) 1 else 0

/-- Step 2: structured transitions. -/
def transAdd (td : ℚ) : ℚ := if td > 0.2 then 0.4 * min (td * 2) 1 else 0

/-- Step 3: long, complex sentences. -/
def sentLenAdd (asl : ℚ) : ℚ :=
  if asl > 15 then 0.3 * min ((asl - 15) / 20) 1 else 0

/-- Step 4: casual language (subtracted). -/
def casualSub (cd : ℚ) : ℚ := if cd > 0.05 then 0.4 * min (cd * 10) 1 else 0

/-- Step 5: questions and exclamations (subtracted). -/
def emoSub (ei : ℚ) : ℚ := if ei > 0.1 then 0.3 * min (ei * 3) 1 else 0

/-- Step 6: the text-length confidence adjustment. -/
def lenFactor (wc : ℕ) : ℚ := if wc < 20 then 0.7 else if wc > 100 then 1.1 else 1

/-- Step 7: complex sentence structures. -/
def complexAdd (ci : ℕ) : ℚ := if ci > 2 then 0.1 * min ((ci : ℚ) / 5) 1 else 0

/-- The `emotional_indicators` quantity of `calculate_desklib_probability`. -/
def emotionalOf (f : Features) : ℚ :=
  ((f.question_count : ℚ) + (f.exclamation_count : ℚ)) / max (f.sentence_count : ℚ) 1

/-- `calculate_desklib_probability` from `ai-detector-adapted.py`. -/
def calculate_desklib_probability : Option Features → ℚ × ℚ
  | none => (0.5, 0.1)
  | some f =>
    let ei := emotionalOf f
    let s := formalAdd f.formal_density + transAdd f.transition_density
              + sentLenAdd f.avg_sentence_length
              - casualSub f.casual_density - emoSub ei
    let s := s * lenFactor f.word_count
    let s := s + complexAdd f.complex_indicators
    let probability := max 0.01 (min 0.99 s)
    let confidence_factors : List ℚ :=
      [f.formal_density * 2, |f.casual_density - 0.05| * 5,
       min (|f.avg_sentence_length - 15| / 10) 1, ei * 2]
    let confidence :=
      max (min (confidence_factors.sum / (confidence_factors.length : ℚ)) 0.98) 0.3
    (probability, confidence)

/-- Packaging of a probability/confidence pair on the scoring path of
`detect_ai_text_desklib`: the Desklib 0.5 threshold, met inclusively,
labels the text as AI. -/
def classifyRecord (pc : ℚ × ℚ) : DetectResult :=
  ⟨pc.1, if pc.1 ≥ 0.5 then "AI Generated" else "Human Written", pc.2⟩

/-- `detect_ai_text_desklib` from `ai-detector-adapted.py`: the classifier
facade.  The guard `not text or len(text.strip()) < 3` collapses to the
single stripped-length test, since an empty string strips to length 0. -/
def detect_ai_text_desklib (text : String) : DetectResult :=
  if (pyStrip text).length < 3 then
    ⟨0.5, "Human Written", 0.1⟩
  else
    classifyRecord (calculate_desklib_probability (extract_desklib_features text))

end Adapted

/-! ## `user-desklib-model.py` (the `simulate_desklib_prediction` path) -/

namespace UDM

/-- The `academic_terms` list (exact word matches). -/
def academic_terms : List String :=
  ["analysis", "comprehensive", "significant", "substantial", "methodology",
   "framework", "implementation", "optimization", "configuration", "evaluation",
   "investigation", "theoretical", "empirical", "systematic", "extensive",
   "furthermore", "moreover", "consequently", "therefore", "additionally",
   "however", "nevertheless", "subsequently", "alternatively", "specifically"]

/-- The `technical_terms` list. -/
def technical_terms : List String :=
  ["detection", "algorithm", "technique", "approach", "method",
   "process", "system", "functionality", "requirements", "specifications"]

/-- The `formal_connectives` list (substring presence tests). -/
def formal_connectives : List String :=
  ["however", "therefore", "furthermore", "moreover",
   "consequently", "additionally", "nevertheless"]

/-- The `casual_markers` list (substring presence tests). -/
def casual_markers : List String :=
  ["really", "pretty", "quite", "actually", "honestly",
   "basically", "like", "you know", "i mean", "kinda", "sorta",
   "hey", "yeah", "wow", "cool", "awesome", "lol", "omg"]

/-- The tokens `re.findall(r'\b\w+\b', text.strip().lower())` produces. -/
def tokensOf (text : String) : List String := wordTokens (pyLower (pyStrip text))

/-- The length adjustment of `simulate_desklib_prediction`: `*= 0.7` below
10 tokens, `*= 1.2` above 100. -/
def lenFactor (tc : ℕ) : ℚ := if tc < 10 then 0.7 else if tc > 100 then 1.2 else 1

/-- The accumulated `logit_score` of `simulate_desklib_prediction` before the
length adjustment (only meaningful when the token list is non-empty). -/
def rawLogit (text : String) : ℚ :=
  let text_lower := pyLower (pyStrip text)
  let words := tokensOf text
  let token_count := words.length
  let academic_density : ℚ :=
    ((words.filter (fun w => academic_terms.contains w)).length : ℚ) / (token_count : ℚ)
  let technical_density : ℚ :=
    ((words.filter (fun w => technical_terms.contains w)).length : ℚ) / (token_count : ℚ)
  let sentences := pySentences text
  let sentencePart : ℚ :=
    if sentences.isEmpty then 0
    else
      let avg_sentence_length : ℚ := (token_count : ℚ) / (sentences.length : ℚ)
      (if avg_sentence_length > 15 then (avg_sentence_length - 15) * 0.2 else 0)
      + (((sentences.filter (fun s => (pySplit s).length > 20)).length : ℚ) /
          (sentences.length : ℚ)) * 6
  let connective_density : ℚ :=
    ((formal_connectives.filter (fun c => containsSub c text_lower)).length : ℚ) /
      max (sentences.length : ℚ) 1
  let casual_density : ℚ :=
    ((casual_markers.filter (fun m => containsSub m text_lower)).length : ℚ) /
      (token_count : ℚ)
  academic_density * 12 + technical_density * 8.5 + sentencePart
    + connective_density * 8 - casual_density * 15
    - ((countChar '?' text : ℚ) / (token_count : ℚ)) * 10
    - ((countChar '!' text : ℚ) / (token_count : ℚ)) * 8

/-- The final `logit_score`, after the length adjustment. -/
def logitOf (text : String) : ℚ := rawLogit text * lenFactor (tokensOf text).length

/-- The logistic sigmoid `1 / (1 + exp(-x))` used by
`simulate_desklib_prediction` (real-valued: the source computes it with
`math.exp`). -/
noncomputable def sigmoid (x : ℝ) : ℝ := 1 / (1 + Real.exp (-x))

/-- `simulate_desklib_prediction` from `user-desklib-model.py`: probability
and 0/1 label.  An empty token list short-circuits to `(0.5, 0)`. -/
noncomputable def simulate_desklib_prediction (text : String) : ℝ × ℕ :=
  if (tokensOf text).length = 0 then (0.5, 0)
  else
    let probability := sigmoid ((logitOf text : ℚ) : ℝ)
    (probability, if 0.5 ≤ probability then 1 else 0)

/-- `round(x, 4)` from Python: round half to even at four decimal places. -/
noncomputable def roundHalfEven (y : ℝ) : ℤ :=
  if Int.fract y < 1/2 then ⌊y⌋
  else if 1/2 < Int.fract y then ⌊y⌋ + 1
  else if 2 ∣ ⌊y⌋ then ⌊y⌋ else ⌊y⌋ + 1

/-- Python `round(x, 4)`. -/
noncomputable def pyRound4 (x : ℝ) : ℝ := ((roundHalfEven (x * 10000) : ℤ) : ℝ) / 10000

/-- The success record `main` of `user-desklib-model.py` builds from a
simulation result: rounded probability, label string, and a confidence that
is the probability when the label is `1` and its complement otherwise. -/
noncomputable def formatResult (text : String) : ℝ × String × ℝ :=
  let pr := simulate_desklib_prediction text
  (pyRound4 pr.1,
   if pr.2 = 1 then "AI Generated" else "Human Written",
   pyRound4 (if pr.2 = 1 then pr.1 else 1 - pr.1))

end UDM

/-! ## `ai-detector-ml.py` (the `AdvancedLinguisticDetector` fallback) -/

namespace ML

/-- The `ai_patterns` alternation lists (each alternative searched as
`\b … \b`; occurrences of a pattern are the bounded occurrences of its
alternatives). -/
def ai_patterns : List (List String) :=
  [["furthermore", "moreover", "consequently", "additionally", "however",
    "nevertheless", "therefore", "thus"],
   ["comprehensive", "extensive", "significant", "substantial", "considerable",
    "notable", "various", "numerous"],
   ["it is important to note", "it should be noted", "it must be emphasized",
    "it is worth noting"],
   ["in conclusion", "to summarize", "in summary", "overall", "ultimately",
    "finally"],
   ["analysis", "methodology", "framework", "approach", "strategy",
    "implementation", "optimization"],
   ["enhance", "optimize", "facilitate", "utilize", "demonstrate", "establish",
    "ensure", "provide"],
   ["particular", "specific", "certain", "individual", "respective", "relevant",
    "appropriate"]]

/-- The word-alternation `human_patterns` (contractions spelled via `apoS`);
the multiple-punctuation pattern `[.]{2,}|[!]{2,}|[?]{2,}` is counted
separately by `punctRuns`. -/
def human_patterns : List (List String) :=
  [["like", "kinda", "sorta", "yeah", "ok", "lol", "btw", "tbh", "imo", "idk",
    "omg", "wtf"],
   ["awesome", "cool", "amazing", "weird", "crazy", "funny", "stupid", "dumb",
    "ridiculous"],
   ["i" ++ apoS ++ "m", "can" ++ apoS ++ "t", "won" ++ apoS ++ "t",
    "don" ++ apoS ++ "t", "isn" ++ apoS ++ "t", "aren" ++ apoS ++ "t",
    "didn" ++ apoS ++ "t", "wouldn" ++ apoS ++ "t", "shouldn" ++ apoS ++ "t"],
   ["probably", "maybe", "perhaps", "might", "could", "should", "guess",
    "think", "feel"],
   ["honestly", "seriously", "literally", "basically", "actually", "really",
    "totally", "definitely"]]

/-- Occurrence count of one alternation pattern. -/
def patCount (alts : List String) (s : String) : ℕ :=
  (alts.map (fun a => countBounded a s)).sum

/-- Matches of the multiple-punctuation human pattern. -/
def punctRuns (s : String) : ℕ :=
  countRuns2 '.' s.data + countRuns2 '!' s.data + countRuns2 '?' s.data

/-- The `ai_score` of `AdvancedLinguisticDetector.detect` (each pattern match
weighted 2). -/
def aiScoreOf (text_lower : String) : ℕ :=
  2 * (ai_patterns.map (fun p => patCount p text_lower)).sum

/-- The `human_score` of `AdvancedLinguisticDetector.detect`. -/
def humanScoreOf (text_lower : String) : ℕ :=
  (human_patterns.map (fun p => patCount p text_lower)).sum + punctRuns text_lower

/-- The probability computed by `AdvancedLinguisticDetector.detect` on the
non-degenerate path. -/
def probOf (text : String) : ℚ :=
  let text_lower := pyLower text
  let words := wordTokens text_lower
  let sentences := pySentences (pyStrip text)
  let avg_sentence_length : ℚ :=
    ((sentences.map (fun s => (pySplit s).length)).sum : ℚ) / (sentences.length : ℚ)
  let avg_word_length : ℚ := ((words.map String.length).sum : ℚ) / (words.length : ℚ)
  let long_words_r : ℚ := ((words.filter (fun w => w.length > 7)).length : ℚ) /
    (words.length : ℚ)
  let ai_score := aiScoreOf text_lower
  let human_score := humanScoreOf text_lower
  let formality_r : ℚ := (ai_score : ℚ) / max ((words.length : ℚ) / 100) 1
  let casualness_r : ℚ := (human_score : ℚ) / max ((words.length : ℚ) / 100) 1
  let p := (0.5 : ℚ)
  let p := if avg_sentence_length > 18 then p + 0.12 else p
  let p := if avg_word_length > 5.2 then p + 0.08 else p
  let p := if long_words_r > 0.15 then p + 0.1 else p
  let p := if formality_r > 0.02 then p + min (formality_r * 10) 0.2 else p
  let p := if casualness_r > 0.015 then p - min (casualness_r * 15) 0.25 else p
  let p := if (ai_score : ℚ) > (human_score : ℚ) * 3 then p + 0.15 else p
  let p := if (human_score : ℚ) > (ai_score : ℚ) * 2 then p - 0.2 else p
  let p := if words.length > 150 ∧ formality_r > 0.015 then p + 0.08 else p
  let p := if words.length < 40 ∧ casualness_r > 0.025 then p - 0.12 else p
  max 0.15 (min 0.92 p)

/-- The confidence derivation of `AdvancedLinguisticDetector.detect`. -/
def confOf (p : ℚ) : ℚ := min (|p - 0.5| * 2 * 1.2) 1

/-- `AdvancedLinguisticDetector.detect` from `ai-detector-ml.py`. -/
def detect (text : String) : DetectResult :=
  if (wordTokens (pyLower text)).isEmpty ∨ (pySentences (pyStrip text)).isEmpty then
    ⟨0.5, "Human Written", 0.3⟩
  else
    let p := probOf text
    ⟨p, if p ≥ 0.5 then "AI Generated" else "Human Written", confOf p⟩

end ML

/-! ## The CLI `main` entry points

Each script reads stdin, strips it, and prints exactly one JSON record.  A
record is modelled by its possible fields; a field the script does not emit
is `none`.  The transformer branches guarded by `TRANSFORMERS_AVAILABLE` /
`PYTORCH_AVAILABLE` call the external pretrained model, which the
specification places out of scope; the models below follow the pure
fallback path the scripts take when those imports are unavailable. -/

/-- One printed JSON record, by field. -/
structure OutRec where
  error : Option String
  probability : Option ℚ
  label : Option String
  confidence : Option ℚ
  fallback : Option Bool
  deriving DecidableEq, Repr

/-- `main` of `ai-detector-lite.py`. -/
def liteMain (stdin : String) : OutRec :=
  let text := pyStrip stdin
  if text = "" then ⟨some "No text provided", none, none, none, none⟩
  else
    let r := Lite.liteResult text
    ⟨none, some r.probability, some r.label, some r.confidence, none⟩

/-- `main` of `ai-detector-adapted.py`. -/
def adaptedMain (stdin : String) : OutRec :=
  let text := pyStrip stdin
  if text = "" then ⟨some "No text provided", none, none, none, none⟩
  else
    let r := Adapted.detect_ai_text_desklib text
    ⟨none, some r.probability, some r.label, some r.confidence, none⟩

/-- `main` of `ai-detector-ml.py` (fallback path): note that the
empty-input record carries an `error` message *and* the neutral
probability/label/confidence fields, and that fallback results are marked
`fallback = true`. -/
def mlMain (stdin : String) : OutRec :=
  let input_text := pyStrip stdin
  if input_text = "" then
    ⟨some "No input text provided", some 0.5, some "Human Written", some 0.3, none⟩
  else
    let r := ML.detect input_text
    ⟨none, some r.probability, some r.label, some r.confidence, some true⟩

/-! ## Supporting lemmas -/

/-- The lite probability is the clamp of the scaled score. -/
theorem Lite.detect_fst (t : String) :
    (Lite.detect_ai_probability t).1 =
      min (max (Lite.aiScore (Lite.calculate_text_features t) *
        Lite.lenFactor (pySplit t).length) 0.1) 0.99 := rfl

/-- The lite confidence is the clamp of the doubled distance from 0.5. -/
theorem Lite.detect_snd (t : String) :
    (Lite.detect_ai_probability t).2 =
      min (max (|(Lite.detect_ai_probability t).1 - 0.5| * 2) 0.3) 0.95 := rfl

/-- The adapted probability on the scoring path, unclamped accumulator
spelled out. -/
theorem Adapted.calc_fst (f : Adapted.Features) :
    (Adapted.calculate_desklib_probability (some f)).1 =
      max 0.01 (min 0.99
        ((Adapted.formalAdd f.formal_density + Adapted.transAdd f.transition_density
          + Adapted.sentLenAdd f.avg_sentence_length
          - Adapted.casualSub f.casual_density
          - Adapted.emoSub (Adapted.emotionalOf f)) * Adapted.lenFactor f.word_count
          + Adapted.complexAdd f.complex_indicators)) := rfl

/-- The adapted confidence on the scoring path. -/
theorem Adapted.calc_snd (f : Adapted.Features) :
    (Adapted.calculate_desklib_probability (some f)).2 =
      max (min (([f.formal_density * 2, |f.casual_density - 0.05| * 5,
        min (|f.avg_sentence_length - 15| / 10) 1,
        Adapted.emotionalOf f * 2] : List ℚ).sum / 4) 0.98) 0.3 := rfl

/-- The probability of `calculate_desklib_probability` always lies inside
the clamp band `[0.01, 0.99]`. -/
theorem Adapted.calc_prob_band (o : Option Adapted.Features) :
    0.01 ≤ (Adapted.calculate_desklib_probability o).1 ∧
      (Adapted.calculate_desklib_probability o).1 ≤ 0.99 := by
  cases o with
  | none =>
    constructor <;> norm_num [Adapted.calculate_desklib_probability]
  | some f =>
    rw [Adapted.calc_fst]
    exact ⟨le_max_left _ _, max_le (by norm_num) (min_le_left _ _)⟩

/-- The logistic sigmoid is strictly positive. -/
theorem UDM.sigmoid_pos (x : ℝ) : 0 < UDM.sigmoid x := by
  unfold UDM.sigmoid
  positivity

/-- The logistic sigmoid is strictly below one. -/
theorem UDM.sigmoid_lt_one (x : ℝ) : UDM.sigmoid x < 1 := by
  unfold UDM.sigmoid
  rw [div_lt_one (by positivity)]
  linarith [Real.exp_pos (-x)]

/-- Round-half-even never rounds below the floor. -/
theorem UDM.roundHalfEven_ge_floor (y : ℝ) : ⌊y⌋ ≤ UDM.roundHalfEven y := by
  unfold UDM.roundHalfEven
  split_ifs <;> omega

/-- `round(x, 4)` of a value that is at least one half is at least one
half. -/
theorem UDM.pyRound4_ge_half {x : ℝ} (h : (1:ℝ)/2 ≤ x) : (1:ℝ)/2 ≤ UDM.pyRound4 x := by
  have h1 : (5000 : ℤ) ≤ ⌊x * 10000⌋ := by
    rw [Int.le_floor]
    push_cast
    linarith
  have h2 : (5000 : ℤ) ≤ UDM.roundHalfEven (x * 10000) :=
    le_trans h1 (UDM.roundHalfEven_ge_floor _)
  unfold UDM.pyRound4
  have h3 : (5000 : ℝ) ≤ ((UDM.roundHalfEven (x * 10000) : ℤ) : ℝ) := by
    exact_mod_cast h2
  linarith

/-- `round(0.5, 4) = 0.5`. -/
theorem UDM.pyRound4_half : UDM.pyRound4 ((1:ℝ)/2) = 1/2 := by
  have h : ((1:ℝ)/2) * 10000 = ((5000 : ℤ) : ℝ) := by norm_num
  unfold UDM.pyRound4 UDM.roundHalfEven
  rw [h, Int.fract_intCast, Int.floor_intCast]
  norm_num

/-! ## Claim C1 -/

/-- C1: for every input text the detection probability is strictly inside
(0,1) and inside the variant's declared clamp band: the lite variant clamps
into [0.1, 0.99], the adapted variant into [0.01, 0.99], and the
user-desklib simulation returns a genuine logistic sigmoid value, strictly
between 0 and 1; no variant ever returns exactly 0 or exactly 1. -/
theorem claim1_probability_in_band (t : String) :
    (0.1 ≤ (Lite.detect_ai_probability t).1 ∧ (Lite.detect_ai_probability t).1 ≤ 0.99)
    ∧ (0.01 ≤ (Adapted.detect_ai_text_desklib t).probability ∧
        (Adapted.detect_ai_text_desklib t).probability ≤ 0.99)
    ∧ (0 < (UDM.simulate_desklib_prediction t).1 ∧
        (UDM.simulate_desklib_prediction t).1 < 1) := by
  refine ⟨?_, ?_, ?_⟩
  · rw [Lite.detect_fst]
    exact ⟨le_min (le_max_right _ _) (by norm_num), min_le_right _ _⟩
  · unfold Adapted.detect_ai_text_desklib
    split
    · constructor <;> norm_num
    · exact Adapted.calc_prob_band _
  · unfold UDM.simulate_desklib_prediction
    split
    · constructor <;> norm_num
    · exact ⟨UDM.sigmoid_pos _, UDM.sigmoid_lt_one _⟩

/-! ## Claim C2 -/

/-- A 21-word text engineered so that the lite score lands exactly on the
0.5 decision boundary. -/
def boundaryText : String :=
  "the comprehensive analysis was significant and systematic and we really like the way all of it was so very good here."

set_option maxRecDepth 100000 in
/-- C2 counterexample: on `boundaryText` the lite variant computes
probability exactly 0.5 yet labels it "Human Written" (its `main` uses the
strict comparison `probability > 0.5`), contradicting the claim that a
probability of exactly 0.5 is labelled "AI Generated". -/
theorem claim2_counterexample :
    (Lite.liteResult boundaryText).probability = 0.5 ∧
      (Lite.liteResult boundaryText).label = "Human Written" := by
  with_unfolding_all decide

/-- C2 (amended): the adapted facade and the user-desklib simulation label
"AI Generated" exactly when the probability is at least 0.5 (on their
scoring paths: adapted's degenerate short-input branch and user-desklib's
empty-token branch pin the label independently of the 0.5 probability they
report); the lite variant instead uses the strict comparison, so its label
is "AI Generated" exactly when the probability exceeds 0.5. -/
theorem claim2_label_threshold :
    (∀ t : String, ¬ (pyStrip t).length < 3 →
      ((Adapted.detect_ai_text_desklib t).label = "AI Generated" ↔
        0.5 ≤ (Adapted.detect_ai_text_desklib t).probability))
    ∧ (∀ t : String, (Lite.liteResult t).label = "AI Generated" ↔
        0.5 < (Lite.liteResult t).probability)
    ∧ (∀ t : String, (UDM.tokensOf t).length ≠ 0 →
      ((UDM.simulate_desklib_prediction t).2 = 1 ↔
        0.5 ≤ (UDM.simulate_desklib_prediction t).1)) := by
  refine ⟨?_, ?_, ?_⟩
  · intro t h
    have hd : Adapted.detect_ai_text_desklib t =
        Adapted.classifyRecord
          (Adapted.calculate_desklib_probability (Adapted.extract_desklib_features t)) := by
      unfold Adapted.detect_ai_text_desklib
      rw [if_neg h]
    rw [hd]
    unfold Adapted.classifyRecord
    by_cases hp :
        (0.5 : ℚ) ≤ (Adapted.calculate_desklib_probability (Adapted.extract_desklib_features t)).1
    · rw [if_pos hp]
      exact iff_of_true rfl hp
    · rw [if_neg hp]
      dsimp only
      exact iff_of_false (by decide) hp
  · intro t
    show Lite.labelOf (Lite.detect_ai_probability t).1 = "AI Generated" ↔ _
    unfold Lite.labelOf
    by_cases hp : (0.5 : ℚ) < (Lite.detect_ai_probability t).1
    · rw [if_pos hp]
      exact iff_of_true rfl hp
    · rw [if_neg hp]
      exact iff_of_false (by decide) hp
  · intro t h
    unfold UDM.simulate_desklib_prediction
    rw [if_neg h]
    dsimp only
    by_cases hc : (0.5 : ℝ) ≤ UDM.sigmoid ((UDM.logitOf t : ℚ) : ℝ)
    · rw [if_pos hc]
      exact iff_of_true rfl hc
    · rw [if_neg hc]
      exact iff_of_false (by omega) hc

/-- Witness for C2 (amended) at concrete inputs. -/
theorem claim2_label_threshold_witness :
    ((Adapted.detect_ai_text_desklib "hello there").label = "AI Generated" ↔
      0.5 ≤ (Adapted.detect_ai_text_desklib "hello there").probability)
    ∧ ((UDM.simulate_desklib_prediction "hello").2 = 1 ↔
      0.5 ≤ (UDM.simulate_desklib_prediction "hello").1) :=
  ⟨claim2_label_threshold.1 "hello there" (by with_unfolding_all decide),
   claim2_label_threshold.2.2 "hello" (by with_unfolding_all decide)⟩

/-! ## Claim C3 -/

/-- C3 counterexample: empty stdin *is* treated as an error by the lite
CLI: `main` prints a pure `error` record carrying no probability at all,
rather than the neutral probability-0.5/confidence-0.1 result the claim
asserts for the whole core. -/
theorem claim3_counterexample :
    (liteMain "   ").error = some "No text provided" ∧
      (liteMain "   ").probability = none := by
  with_unfolding_all decide

/-- C3 (amended): the adapted classify facade maps every input whose
stripped length is below 3 — in particular the empty and whitespace-only
strings — to the defined neutral result (probability 0.5, label
"Human Written", confidence 0.1) without error; the CLI `main` wrappers,
however, treat empty stdin as an error and emit an error record instead. -/
theorem claim3_short_input_neutral :
    (∀ t : String, (pyStrip t).length < 3 →
      Adapted.detect_ai_text_desklib t = ⟨0.5, "Human Written", 0.1⟩)
    ∧ (liteMain "").error.isSome = true
    ∧ (adaptedMain "").error.isSome = true := by
  refine ⟨?_, ?_, ?_⟩
  · intro t h
    unfold Adapted.detect_ai_text_desklib
    rw [if_pos h]
  · with_unfolding_all decide
  · with_unfolding_all decide

/-- Witness for C3 (amended): the empty and whitespace-only inputs both
take the neutral branch. -/
theorem claim3_short_input_neutral_witness :
    Adapted.detect_ai_text_desklib "" = ⟨0.5, "Human Written", 0.1⟩ ∧
      Adapted.detect_ai_text_desklib "   " = ⟨0.5, "Human Written", 0.1⟩ :=
  ⟨claim3_short_input_neutral.1 "" (by with_unfolding_all decide),
   claim3_short_input_neutral.1 "   " (by with_unfolding_all decide)⟩

/-! ## Claim C4 -/

/-- C4 counterexample: "dog cat bird" is a non-empty input, yet the
`AdvancedLinguisticDetector` fallback of `ai-detector-ml.py` reports
confidence 0 for it (its probability stays at the neutral 0.5, and its
confidence has no floor), far below the claimed lower bound 0.3. -/
theorem claim4_counterexample :
    (ML.detect "dog cat bird").confidence = 0 ∧
      (ML.detect "dog cat bird").probability = 0.5 := by
  with_unfolding_all decide

/-- C4 (amended): the lite confidence always lies in [0.3, 0.95] and the
adapted confidence lies in [0.3, 0.98] except on the degenerate
short-input/empty-feature path, where it is exactly 0.1; the ml fallback's
confidence, however, is only bounded within [0, 1] — it has no 0.3 floor on
non-empty text (it is 0 whenever the probability lands on 0.5) and its
empty-input value is 0.3, not ≤ 0.1. -/
theorem claim4_confidence_bands (t : String) :
    (0.3 ≤ (Lite.detect_ai_probability t).2 ∧ (Lite.detect_ai_probability t).2 ≤ 0.95)
    ∧ ((Adapted.detect_ai_text_desklib t).confidence = 0.1 ∨
        (0.3 ≤ (Adapted.detect_ai_text_desklib t).confidence ∧
          (Adapted.detect_ai_text_desklib t).confidence ≤ 0.98))
    ∧ (0 ≤ (ML.detect t).confidence ∧ (ML.detect t).confidence ≤ 1) := by
  refine ⟨?_, ?_, ?_⟩
  · rw [Lite.detect_snd]
    exact ⟨le_min (le_max_right _ _) (by norm_num), min_le_right _ _⟩
  · unfold Adapted.detect_ai_text_desklib
    split
    · exact Or.inl rfl
    · show _ ∨ _
      rcases ho : Adapted.extract_desklib_features t with _ | f
      · left
        rfl
      · right
        show 0.3 ≤ (Adapted.calculate_desklib_probability (some f)).2 ∧
          (Adapted.calculate_desklib_probability (some f)).2 ≤ 0.98
        rw [Adapted.calc_snd]
        exact ⟨le_max_right _ _, max_le (min_le_right _ _) (by norm_num)⟩
  · unfold ML.detect
    split
    · constructor <;> norm_num
    · constructor
      · exact le_min (by positivity) (by norm_num)
      · exact min_le_right _ _

/-! ## Claim C5 -/

/-- C5 counterexample: on empty stdin the `ai-detector-ml.py` CLI prints a
record that carries an `error` message *and* the probability, label and
confidence success fields — an error record mixed with success fields. -/
theorem claim5_counterexample :
    (mlMain "").error.isSome = true ∧ (mlMain "").probability.isSome = true ∧
      (mlMain "").label.isSome = true ∧ (mlMain "").confidence.isSome = true := by
  with_unfolding_all decide

/-- C5 (amended): the lite and adapted CLIs emit either a pure error record
(an `error` message and nothing else) or a pure success record (probability,
label and confidence, no `error`); the ml CLI emits the success fields in
every record, so its error record mixes the two shapes. -/
theorem claim5_record_shape (s : String) :
    (((liteMain s).error.isSome = true ∧ (liteMain s).probability = none ∧
        (liteMain s).label = none ∧ (liteMain s).confidence = none) ∨
      ((liteMain s).error = none ∧ (liteMain s).probability.isSome = true ∧
        (liteMain s).label.isSome = true ∧ (liteMain s).confidence.isSome = true))
    ∧ (((adaptedMain s).error.isSome = true ∧ (adaptedMain s).probability = none ∧
        (adaptedMain s).label = none ∧ (adaptedMain s).confidence = none) ∨
      ((adaptedMain s).error = none ∧ (adaptedMain s).probability.isSome = true ∧
        (adaptedMain s).label.isSome = true ∧ (adaptedMain s).confidence.isSome = true))
    ∧ ((mlMain s).probability.isSome = true ∧ (mlMain s).label.isSome = true ∧
        (mlMain s).confidence.isSome = true) := by
  refine ⟨?_, ?_, ?_⟩
  · by_cases h : pyStrip s = ""
    · exact Or.inl (by simp [liteMain, h])
    · exact Or.inr (by simp [liteMain, h])
  · by_cases h : pyStrip s = ""
    · exact Or.inl (by simp [adaptedMain, h])
    · exact Or.inr (by simp [adaptedMain, h])
  · by_cases h : pyStrip s = "" <;> simp [mlMain, h]

/-! ## Claim C6 -/

/-- C6 counterexample: the lite variant applies *no* multiplier above 100
words (its factor is 1, not in [1.1, 1.2]), and the user-desklib simulation
leaves a 15-token text unscaled (its short-text multiplier fires below 10
tokens, not below 20), so the claimed multiplier schedule does not hold
across the scoring engine. -/
theorem claim6_counterexample :
    Lite.lenFactor 150 = 1 ∧ ¬ (1.1 ≤ Lite.lenFactor 150 ∧ Lite.lenFactor 150 ≤ 1.2)
    ∧ UDM.lenFactor 15 = 1 ∧ ¬ (0.6 ≤ UDM.lenFactor 15 ∧ UDM.lenFactor 15 ≤ 0.7) := by
  with_unfolding_all decide

/-- C6 (amended): the length multiplier schedule differs per variant.  The
adapted scorer multiplies by 0.7 below 20 words and by 1.1 above 100; the
lite scorer multiplies by 0.7 below 20 words and never scales long texts;
the user-desklib simulation multiplies by 0.7 below 10 tokens and by 1.2
above 100; in every remaining range the factor is exactly 1. -/
theorem claim6_length_multiplier (wc : ℕ) :
    (wc < 20 → Adapted.lenFactor wc = 0.7 ∧ Lite.lenFactor wc = 0.7)
    ∧ (100 < wc → Adapted.lenFactor wc = 1.1 ∧ Lite.lenFactor wc = 1)
    ∧ (20 ≤ wc → wc ≤ 100 → Adapted.lenFactor wc = 1 ∧ Lite.lenFactor wc = 1)
    ∧ (wc < 10 → UDM.lenFactor wc = 0.7)
    ∧ (10 ≤ wc → wc ≤ 100 → UDM.lenFactor wc = 1)
    ∧ (100 < wc → UDM.lenFactor wc = 1.2) := by
  unfold Adapted.lenFactor Lite.lenFactor UDM.lenFactor
  refine ⟨?_, ?_, ?_, ?_, ?_, ?_⟩
  · intro h
    rw [if_pos h, if_pos h]
    exact ⟨rfl, rfl⟩
  · intro h
    rw [if_neg (by omega), if_pos (by omega : wc > 100), if_neg (by omega)]
    exact ⟨rfl, rfl⟩
  · intro h1 h2
    rw [if_neg (by omega), if_neg (by omega : ¬ wc > 100), if_neg (by omega)]
    exact ⟨rfl, rfl⟩
  · intro h
    rw [if_pos h]
  · intro h1 h2
    rw [if_neg (by omega), if_neg (by omega : ¬ wc > 100)]
  · intro h
    rw [if_neg (by omega), if_pos (by omega : wc > 100)]

/-- Witness for C6 (amended): the six ranges at word counts 5, 15, 50 and
150. -/
theorem claim6_length_multiplier_witness :
    (Adapted.lenFactor 5 = 0.7 ∧ Lite.lenFactor 5 = 0.7)
    ∧ (Adapted.lenFactor 150 = 1.1 ∧ Lite.lenFactor 150 = 1)
    ∧ (Adapted.lenFactor 50 = 1 ∧ Lite.lenFactor 50 = 1)
    ∧ UDM.lenFactor 5 = 0.7 ∧ UDM.lenFactor 15 = 1 ∧ UDM.lenFactor 150 = 1.2 :=
  ⟨(claim6_length_multiplier 5).1 (by omega),
   (claim6_length_multiplier 150).2.1 (by omega),
   (claim6_length_multiplier 50).2.2.1 (by omega) (by omega),
   (claim6_length_multiplier 5).2.2.2.1 (by omega),
   (claim6_length_multiplier 15).2.2.2.2.1 (by omega) (by omega),
   (claim6_length_multiplier 150).2.2.2.2.2 (by omega)⟩

/-! ## Claim C7 -/

/-- The transition contribution of the adapted scorer is monotone
nondecreasing in the transition density. -/
theorem Adapted.transAdd_mono {d d2 : ℚ} (h : d ≤ d2) :
    Adapted.transAdd d ≤ Adapted.transAdd d2 := by
  unfold Adapted.transAdd
  split_ifs with h1 h2
  · exact mul_le_mul_of_nonneg_left
      (min_le_min (by linarith) (le_refl (1 : ℚ))) (by norm_num)
  · linarith
  · exact mul_nonneg (by norm_num) (le_min (by linarith) (by norm_num))
  · exact le_refl 0

/-- The formal-pattern contribution of the lite scorer is monotone
nondecreasing in the formal ratio. -/
theorem Lite.formalAdd_mono {r r2 : ℚ} (h : r ≤ r2) :
    Lite.formalAdd r ≤ Lite.formalAdd r2 := by
  unfold Lite.formalAdd
  split_ifs with h1 h2
  · exact le_refl _
  · linarith
  · norm_num
  · exact le_refl 0

/-- The adapted length factor is nonnegative. -/
theorem Adapted.lenFactor_nonnegA (wc : ℕ) : 0 ≤ Adapted.lenFactor wc := by
  unfold Adapted.lenFactor
  split_ifs <;> norm_num

/-- The lite length factor is nonnegative. -/
theorem Lite.lenFactor_nonnegL (wc : ℕ) : 0 ≤ Lite.lenFactor wc := by
  unfold Lite.lenFactor
  split_ifs <;> norm_num

/-- Monotonicity of the adapted clamp-of-scaled-sum in its second addend. -/
theorem clampMonoAdapted (F S C E X L : ℚ) (hL : 0 ≤ L) {a b : ℚ} (hab : a ≤ b) :
    max 0.01 (min 0.99 ((F + a + S - C - E) * L + X)) ≤
      max 0.01 (min 0.99 ((F + b + S - C - E) * L + X)) := by
  refine max_le_max (le_refl _) (min_le_min (le_refl _) ?_)
  have h1 : F + a + S - C - E ≤ F + b + S - C - E := by linarith
  have h2 := mul_le_mul_of_nonneg_right h1 hL
  linarith

/-- Monotonicity of the lite clamp-of-scaled-sum in its fourth addend. -/
theorem clampMonoLite (T1 T2 T3 T5 T6 T7 L : ℚ) (hL : 0 ≤ L) {a b : ℚ} (hab : a ≤ b) :
    min (max ((T1 + T2 + T3 + a + T5 + T6 + T7) * L) 0.1) 0.99 ≤
      min (max ((T1 + T2 + T3 + b + T5 + T6 + T7) * L) 0.1) 0.99 := by
  refine min_le_min (max_le_max ?_ (le_refl _)) (le_refl _)
  have h1 : T1 + T2 + T3 + a + T5 + T6 + T7 ≤ T1 + T2 + T3 + b + T5 + T6 + T7 := by
    linarith
  exact mul_le_mul_of_nonneg_right h1 hL

/-- C7: with every other feature held fixed, raising the formal-connective
feature (the adapted scorer's transition density, the lite scorer's formal
pattern ratio) never lowers the returned probability. -/
theorem claim7_connective_monotone :
    (∀ (f : Adapted.Features) (d d2 : ℚ), d ≤ d2 →
      (Adapted.calculate_desklib_probability
          (some { f with transition_density := d })).1 ≤
        (Adapted.calculate_desklib_probability
          (some { f with transition_density := d2 })).1)
    ∧ (∀ (f : Lite.Features) (r r2 : ℚ) (wc : ℕ), r ≤ r2 →
      (Lite.scorePair { f with formal_r := r } wc).1 ≤
        (Lite.scorePair { f with formal_r := r2 } wc).1) := by
  constructor
  · intro f d d2 h
    rw [Adapted.calc_fst, Adapted.calc_fst]
    exact clampMonoAdapted _ _ _ _ _ _
      (Adapted.lenFactor_nonnegA _) (Adapted.transAdd_mono h)
  · intro f r r2 wc h
    show min (max (Lite.aiScore { f with formal_r := r } * Lite.lenFactor wc) 0.1) 0.99 ≤
      min (max (Lite.aiScore { f with formal_r := r2 } * Lite.lenFactor wc) 0.1) 0.99
    unfold Lite.aiScore
    exact clampMonoLite _ _ _ _ _ _ _
      (Lite.lenFactor_nonnegL _) (Lite.formalAdd_mono h)

/-- A sample adapted feature vector for the monotonicity witness. -/
def sampleAdaptedF : Adapted.Features :=
  { formal_density := 0.2, transition_density := 0, avg_sentence_length := 12,
    casual_density := 0, question_count := 0, exclamation_count := 0,
    complex_indicators := 0, colon_usage := 0, word_count := 25,
    sentence_count := 2 }

/-- A sample lite feature vector for the monotonicity witness. -/
def sampleLiteF : Lite.Features :=
  { avg_word_length := 5, avg_sentence_length := 10, sophistication_r := 0,
    formal_r := 0, repetition_score := 0, exclamation_r := 0, question_r := 0,
    casual_r := 0.1 }

/-- Witness for C7 at a concrete feature vector and densities. -/
theorem claim7_connective_monotone_witness :
    (Adapted.calculate_desklib_probability
        (some { sampleAdaptedF with transition_density := 0.1 })).1 ≤
      (Adapted.calculate_desklib_probability
        (some { sampleAdaptedF with transition_density := 0.6 })).1 ∧
    (Lite.scorePair { sampleLiteF with formal_r := 0.2 } 30).1 ≤
      (Lite.scorePair { sampleLiteF with formal_r := 0.9 } 30).1 :=
  ⟨claim7_connective_monotone.1 sampleAdaptedF 0.1 0.6 (by norm_num),
   claim7_connective_monotone.2 sampleLiteF 0.2 0.9 30 (by norm_num)⟩

/-! ## Claim C8 -/

/-- The exact scenario input fixed by the specification. -/
def scenarioText : String :=
  "This comprehensive analysis demonstrates significant findings; furthermore, the methodology employed substantial empirical investigation."

set_option maxRecDepth 100000 in
/-- C8 counterexample: the scenario expectation fails on both heuristic
variants.  The lite variant does label the text "AI Generated" but computes
probability 0.595, not above 0.6; the adapted variant labels it
"Human Written" with probability 63/130 ≈ 0.485. -/
theorem claim8_counterexample :
    ¬ ((Lite.liteResult scenarioText).label = "AI Generated" ∧
        0.6 < (Lite.liteResult scenarioText).probability) ∧
    ¬ ((Adapted.detect_ai_text_desklib scenarioText).label = "AI Generated" ∧
        0.6 < (Adapted.detect_ai_text_desklib scenarioText).probability) := by
  with_unfolding_all decide

set_option maxRecDepth 100000 in
/-- C8 (amended): on the scenario input the lite variant returns label
"AI Generated" with probability exactly 0.595 (above the 0.5 threshold but
not above 0.6, because the 13-word text triggers the 0.7 short-text
multiplier on its raw score of 0.85), while the adapted variant returns
"Human Written" with probability 63/130 ≈ 0.485. -/
theorem claim8_scenario_actual :
    (Lite.liteResult scenarioText).label = "AI Generated" ∧
      (Lite.liteResult scenarioText).probability = 0.595 ∧
      (Adapted.detect_ai_text_desklib scenarioText).label = "Human Written" ∧
      (Adapted.detect_ai_text_desklib scenarioText).probability = 63/130 := by
  with_unfolding_all decide

/-! ## Claim C9 -/

/-- C9: classification is deterministic — two invocations on equal texts
produce identical results; the embedded pipelines are pure functions of the
input string, with no randomness, clock access, or cross-call state. -/
theorem claim9_deterministic (t u : String) (h : t = u) :
    Adapted.detect_ai_text_desklib t = Adapted.detect_ai_text_desklib u ∧
      Lite.detect_ai_probability t = Lite.detect_ai_probability u ∧
      ML.detect t = ML.detect u := by
  subst h
  exact ⟨rfl, rfl, rfl⟩

/-- Witness for C9 on a concrete repeated input. -/
theorem claim9_deterministic_witness :
    Adapted.detect_ai_text_desklib "sample text here." =
        Adapted.detect_ai_text_desklib "sample text here." ∧
      Lite.detect_ai_probability "sample text here." =
        Lite.detect_ai_probability "sample text here." ∧
      ML.detect "sample text here." = ML.detect "sample text here." :=
  claim9_deterministic "sample text here." "sample text here." rfl

/-! ## Claim C10 -/

/-- C10: the user-desklib variant reports `confidence = round(p, 4)` when
the label is AI (`p ≥ 0.5`) and `round(1 - p, 4)` otherwise (`p < 0.5`),
and an empty token list yields probability 0.5 with label 0, so the
reported confidence is at least 0.5 for every input and exactly 0.5 on
empty input — it can never approach the 0.1 / 0.3 confidence floors of the
other variants. -/
theorem claim10_udm_confidence_floor :
    (∀ t : String, 1/2 ≤ (UDM.formatResult t).2.2) ∧
      (UDM.formatResult "").2.2 = 1/2 := by
  constructor
  · intro t
    unfold UDM.formatResult
    dsimp only
    unfold UDM.simulate_desklib_prediction
    by_cases h0 : (UDM.tokensOf t).length = 0
    · rw [if_pos h0]
      dsimp only
      rw [if_neg (by omega : ¬ (0 : ℕ) = 1)]
      have he : (1 : ℝ) - 0.5 = 1/2 := by norm_num
      rw [he, UDM.pyRound4_half]
    · rw [if_neg h0]
      dsimp only
      by_cases hc : (0.5 : ℝ) ≤ UDM.sigmoid ((UDM.logitOf t : ℚ) : ℝ)
      · rw [if_pos hc, if_pos rfl]
        exact UDM.pyRound4_ge_half (by linarith)
      · rw [if_neg hc, if_neg (by omega : ¬ (0 : ℕ) = 1)]
        push_neg at hc
        exact UDM.pyRound4_ge_half (by linarith)
  · unfold UDM.formatResult
    dsimp only
    unfold UDM.simulate_desklib_prediction
    rw [if_pos (by decide : (UDM.tokensOf "").length = 0)]
    dsimp only
    rw [if_neg (by omega : ¬ (0 : ℕ) = 1)]
    have he : (1 : ℝ) - 0.5 = 1/2 := by norm_num
    rw [he, UDM.pyRound4_half]
